import Mathlib

/-!
# M-Pesa processor: request/response contract

A shallow embedding of `src/services/mpesaService.js`,
`src/controllers/mpesaController.js` and the global error handler of
`src/index.js`.

* JavaScript values are the inductive type `JSVal`; `truthy` is the coercion
  that `!x` and `x || y` apply.
* `process.env` is the record `Env` (each variable a string or `undefined`).
* The provider reached through `axios` is a pair of functions from the
  outbound request to an `HttpResult`; the clock read by `new Date()` is a
  `UTCInstant`.
* Every asynchronous function becomes a pure function returning a `Run`:
  the value returned or the error thrown, together with the ordered list of
  effects (log lines and outbound HTTP calls) it performed.
-/

namespace Mpesa

/-! ## JavaScript values -/

/-- A JavaScript value as it can appear in a parsed JSON body, in a provider
response or as the result of a property read.  Numbers are kept as rationals:
the code never computes with them, it only tests them for truthiness and
forwards them. -/
inductive JSVal where
  | undefined : JSVal
  | null : JSVal
  | bool (b : Bool) : JSVal
  | num (q : Rat) : JSVal
  | str (s : String) : JSVal
  | arr (items : List JSVal) : JSVal
  | obj (fields : List (String × JSVal)) : JSVal

/-- The `ToBoolean` coercion used by `!x`, `x || y` and `c ? a : b`. -/
def truthy : JSVal → Bool
  | .undefined => false
  | .null => false
  | .bool b => b
  | .num q => q != 0
  | .str s => s != ""
  | .arr _ => true
  | .obj _ => true

/-- The operator `a || b`. -/
def jsOr (a b : JSVal) : JSVal :=
  if truthy a then a else b

/-- Whether a value is `undefined` or `null` (reading a property of such a
value throws a `TypeError`). -/
def nullish : JSVal → Bool
  | .undefined => true
  | .null => true
  | _ => false

/-- The property read `v.key` for the keys this program reads (`amount`, `phone`,
`accountReference`, `transactionDesc`, `access_token`) on a value that is
not nullish: an own field of an object, `undefined` on anything else. -/
def getProp (v : JSVal) (key : String) : JSVal :=
  match v with
  | .obj fields => (fields.lookup key).getD .undefined
  | _ => .undefined

/-- Whether a value is a JavaScript string. -/
def isString : JSVal → Bool
  | .str _ => true
  | _ => false

/-- Whether a value is a JavaScript number strictly greater than zero. -/
def isPositiveNumber : JSVal → Bool
  | .num q => decide (0 < q)
  | _ => false

/-- The string a template literal substitutes for a string-or-undefined
value. -/
def optText : Option String → String
  | some s => s
  | none => "undefined"

/-- Truthiness of a `process.env` entry: defined and not the empty string. -/
def envSet : Option String → Bool
  | some s => s != ""
  | none => false

/-! ## Errors, effects and runs -/

/-- The fields of a thrown value that the program reads. -/
structure JSError where
  message : Option String
  status : Option Nat
  stack : Option String

/-- What the JavaScript engine supplies and the program does not define:
the text of `JSON.stringify(v)` inside a template literal, the text of a
value passed as an extra logger argument, and the stack trace recorded by
`new Error(message)`. -/
structure Runtime where
  jsonText : JSVal → String
  display : JSVal → String
  stackOf : String → String

/-- The value built by `new Error(message)`: no `status` property. -/
def newError (rt : Runtime) (message : String) : JSError :=
  { message := some message, status := none, stack := some (rt.stackOf message) }

/-- The `TypeError` the engine throws (V8 wording). -/
def typeError (rt : Runtime) (message : String) : JSError :=
  { message := some message, status := none, stack := some (rt.stackOf message) }

/-- The environment variables the program reads. -/
structure Env where
  NODE_ENV : Option String
  MPESA_CONSUMER_KEY : Option String
  MPESA_CONSUMER_SECRET : Option String
  MPESA_PASSKEY : Option String
  MPESA_SHORTCODE : Option String
  MPESA_CALLBACK_URL : Option String

/-- The JSON body POSTed to the provider. -/
structure Payload where
  BusinessShortCode : String
  Password : String
  Timestamp : String
  TransactionType : String
  Amount : JSVal
  PartyA : JSVal
  PartyB : String
  PhoneNumber : JSVal
  CallBackURL : Option String
  AccountReference : JSVal
  TransactionDesc : JSVal

/-- What `axios` does with a call: it resolves on a 2xx response, rejects
with `error.response` set on any other response, and rejects without a
response on a network failure. -/
inductive HttpResult where
  | ok (status : Nat) (data : JSVal)
  | httpError (status : Nat) (data : JSVal)
  | networkError (message : String)

/-- The provider: its answer to the OAuth GET and to the payment POST, as
functions of the request sent. -/
structure Provider where
  oauth : String → String → HttpResult
  stkpush : String → String → Payload → HttpResult

/-- An observable effect. -/
inductive Event where
  | logError (text : String)
  | logInfo (text : String) (extra : Option JSVal)
  | httpGet (url : String) (authorization : String)
  | httpPost (url : String) (authorization : String) (payload : Payload)

/-- Whether an effect is an outbound HTTP call. -/
def Event.isHttp : Event → Bool
  | .httpGet _ _ => true
  | .httpPost _ _ _ => true
  | _ => false

/-- Whether an effect is the payment POST. -/
def Event.isPost : Event → Bool
  | .httpPost _ _ _ => true
  | _ => false

/-- The outcome of running a function: what it returned or threw, and the
effects it performed, in order. -/
structure Run (α : Type) where
  result : Except JSError α
  trace : List Event

/-- The text a template literal substitutes for a value. -/
def templateText (rt : Runtime) : JSVal → String
  | .str s => s
  | .undefined => "undefined"
  | .null => "null"
  | .bool true => "true"
  | .bool false => "false"
  | v => rt.display v

/-! ## The timestamp -/

/-- The instant returned by `new Date()`, broken down in UTC the way
`Date.prototype.toISOString` reads it. -/
structure UTCInstant where
  year : Int
  month : Nat
  day : Nat
  hour : Nat
  minute : Nat
  second : Nat
  millisecond : Nat

/-- The calendar ranges of the fields of an instant. -/
def UTCInstant.WellFormed (t : UTCInstant) : Prop :=
  1 ≤ t.month ∧ t.month ≤ 12 ∧ 1 ≤ t.day ∧ t.day ≤ 31 ∧ t.hour ≤ 23 ∧
    t.minute ≤ 59 ∧ t.second ≤ 59 ∧ t.millisecond ≤ 999

/-- The decimal digit character of `d % 10`. -/
def digitChar (d : Nat) : Char :=
  Char.ofNat (48 + d % 10)

/-- Two decimal digits, zero padded. -/
def pad2 (n : Nat) : List Char :=
  [digitChar (n / 10), digitChar n]

/-- Three decimal digits, zero padded. -/
def pad3 (n : Nat) : List Char :=
  [digitChar (n / 100), digitChar (n / 10), digitChar n]

/-- Four decimal digits, zero padded. -/
def pad4 (n : Nat) : List Char :=
  [digitChar (n / 1000), digitChar (n / 100), digitChar (n / 10), digitChar n]

/-- Six decimal digits, zero padded. -/
def pad6 (n : Nat) : List Char :=
  [digitChar (n / 100000), digitChar (n / 10000), digitChar (n / 1000),
    digitChar (n / 100), digitChar (n / 10), digitChar n]

/-- The year of an ISO string: four digits for the years 0 to 9999, a sign
and six digits (the expanded year) outside that range. -/
def isoYear (y : Int) : List Char :=
  if 0 ≤ y ∧ y ≤ 9999 then pad4 y.toNat
  else if y < 0 then '-' :: pad6 (-y).toNat
  else '+' :: pad6 y.toNat

/-- The result of `Date.prototype.toISOString`: `YYYY-MM-DDTHH:mm:ss.sssZ`. -/
def toISOString (t : UTCInstant) : String :=
  String.mk (isoYear t.year ++ '-' :: pad2 t.month ++ '-' :: pad2 t.day ++ 'T' :: pad2 t.hour
    ++ ':' :: pad2 t.minute ++ ':' :: pad2 t.second ++ '.' :: pad3 t.millisecond ++ ['Z'])

/-- The call `s.replace(/[^0-9]/g, '')`. -/
def stripNonDigits (s : String) : String :=
  String.mk (s.data.filter Char.isDigit)

/-- The call `s.slice(0, -3)`. -/
def sliceOffLast3 (s : String) : String :=
  String.mk (s.data.take (s.data.length - 3))

/-- The expression `new Date().toISOString().replace(/[^0-9]/g, '').slice(0, -3)`. -/
def timestampAt (now : UTCInstant) : String :=
  sliceOffLast3 (stripNonDigits (toISOString now))

/-- The decimal numeral of `n`, left-padded with zeros to `width` characters
(`String(n).padStart(width, '0')`). -/
def zeroPad (width n : Nat) : List Char :=
  List.replicate (width - (Nat.repr n).length) '0' ++ (Nat.repr n).data

/-- The text `YYYYMMDDHHmmss` of an instant, written from the format's words:
the decimal numerals of year (four places), month, day, hour, minute and
second (two places each), zero padded, without separators. -/
def compactDateTime (t : UTCInstant) : String :=
  String.mk (zeroPad 4 t.year.toNat ++ zeroPad 2 t.month ++ zeroPad 2 t.day ++ zeroPad 2 t.hour
    ++ zeroPad 2 t.minute ++ zeroPad 2 t.second)

/-! ## UTF-8 and base64 (`Buffer.from(text).toString('base64')`) -/

/-- The UTF-8 bytes of one character. -/
def utf8EncodeChar (c : Char) : List Nat :=
  let v := c.toNat
  if v < 0x80 then [v]
  else if v < 0x800 then [0xC0 + v / 64, 0x80 + v % 64]
  else if v < 0x10000 then [0xE0 + v / 4096, 0x80 + v / 64 % 64, 0x80 + v % 64]
  else [0xF0 + v / 262144, 0x80 + v / 4096 % 64, 0x80 + v / 64 % 64, 0x80 + v % 64]

/-- The bytes of `Buffer.from(text)`. -/
def utf8Bytes (s : String) : List Nat :=
  s.data.flatMap utf8EncodeChar

/-- The base64 character of a six-bit value. -/
def base64Char (i : Nat) : Char :=
  if i < 26 then Char.ofNat (65 + i)
  else if i < 52 then Char.ofNat (97 + (i - 26))
  else if i < 62 then Char.ofNat (48 + (i - 52))
  else if i = 62 then '+'
  else '/'

/-- Base64 of a byte list, with `=` padding. -/
def base64Chars : List Nat → List Char
  | [] => []
  | [a] => [base64Char (a / 4), base64Char (a % 4 * 16), '=', '=']
  | [a, b] => [base64Char (a / 4), base64Char (a % 4 * 16 + b / 16), base64Char (b % 16 * 4), '=']
  | a :: b :: c :: rest =>
    base64Char (a / 4) :: base64Char (a % 4 * 16 + b / 16) :: base64Char (b % 16 * 4 + c / 64)
      :: base64Char (c % 64) :: base64Chars rest

/-- The expression `Buffer.from(text).toString('base64')`. -/
def base64 (text : String) : String :=
  String.mk (base64Chars (utf8Bytes text))

/-- The six-bit value of a base64 character. -/
def base64Value (c : Char) : Option Nat :=
  let n := c.toNat
  if 65 ≤ n ∧ n ≤ 90 then some (n - 65)
  else if 97 ≤ n ∧ n ≤ 122 then some (n - 97 + 26)
  else if 48 ≤ n ∧ n ≤ 57 then some (n - 48 + 52)
  else if c = '+' then some 62
  else if c = '/' then some 63
  else none

/-- Base64 decoding of padded text to bytes; `none` on malformed text. -/
def base64DecodeChars : List Char → Option (List Nat)
  | [] => some []
  | c1 :: c2 :: c3 :: c4 :: rest =>
    if c4 = '=' then
      if rest = [] then
        if c3 = '=' then do
          let i1 ← base64Value c1
          let i2 ← base64Value c2
          pure [i1 * 4 + i2 / 16]
        else do
          let i1 ← base64Value c1
          let i2 ← base64Value c2
          let i3 ← base64Value c3
          pure [i1 * 4 + i2 / 16, i2 % 16 * 16 + i3 / 4]
      else none
    else do
      let i1 ← base64Value c1
      let i2 ← base64Value c2
      let i3 ← base64Value c3
      let i4 ← base64Value c4
      let tail ← base64DecodeChars rest
      pure ((i1 * 4 + i2 / 16) :: (i2 % 16 * 16 + i3 / 4) :: (i3 % 4 * 64 + i4) :: tail)
  | _ => none

/-- Base64 decoding of a string to bytes. -/
def base64Decode (s : String) : Option (List Nat) :=
  base64DecodeChars s.data

/-- The first character of a UTF-8 byte sequence and the bytes after it. -/
def utf8DecodeChar : List Nat → Option (Char × List Nat)
  | [] => none
  | b0 :: rest =>
    if b0 < 0x80 then some (Char.ofNat b0, rest)
    else if b0 < 0xE0 then
      match rest with
      | b1 :: rest => some (Char.ofNat ((b0 - 0xC0) * 64 + (b1 - 0x80)), rest)
      | _ => none
    else if b0 < 0xF0 then
      match rest with
      | b1 :: b2 :: rest =>
        some (Char.ofNat ((b0 - 0xE0) * 4096 + (b1 - 0x80) * 64 + (b2 - 0x80)), rest)
      | _ => none
    else
      match rest with
      | b1 :: b2 :: b3 :: rest =>
        some (Char.ofNat ((b0 - 0xF0) * 262144 + (b1 - 0x80) * 4096 + (b2 - 0x80) * 64
          + (b3 - 0x80)), rest)
      | _ => none

/-- UTF-8 decoding of at most `fuel` characters. -/
def utf8DecodeFuel : Nat → List Nat → Option (List Char)
  | _, [] => some []
  | 0, _ :: _ => none
  | fuel + 1, b :: bs =>
    match utf8DecodeChar (b :: bs) with
    | none => none
    | some (c, rest) => (utf8DecodeFuel fuel rest).map (c :: ·)

/-- The text of a UTF-8 byte sequence.  Every character takes at least one
byte, so the byte count is enough fuel. -/
def utf8Decode (bytes : List Nat) : Option String :=
  (utf8DecodeFuel bytes.length bytes).map String.mk

/-- The text of `Buffer.from(s, 'base64').toString()`: base64-decode, then read
the bytes as UTF-8. -/
def base64DecodeText (s : String) : Option String :=
  (base64Decode s).bind utf8Decode

/-! ## `src/services/mpesaService.js` -/

/-- The function `getMpesaEnvironment`. -/
def getMpesaEnvironment (env : Option String) : String :=
  if env = some "production" then "https://api.safaricom.co.ke"
  else "https://sandbox.safaricom.co.ke"

/-- The module constant `MPESA_API_BASE_URL`. -/
def MPESA_API_BASE_URL (env : Env) : String :=
  getMpesaEnvironment env.NODE_ENV

/-- The value bound by `catch (error)` around an `axios` call: a rejection
carrying `error.response`, or an error without one (a network failure, or a
`TypeError` raised inside the `try` block). -/
inductive Caught where
  | withResponse (data : JSVal)
  | withoutResponse (message : String)

/-- The expression
`error.response ? JSON.stringify(error.response.data) : error.message`. -/
def errorMessage (rt : Runtime) : Caught → String
  | .withResponse data => rt.jsonText data
  | .withoutResponse message => message

namespace mpesaService

/-- The `catch` block of `getAccessToken`: log the detail, throw the generic
error. -/
def tokenFailure (rt : Runtime) (sent : List Event) (e : Caught) : Run JSVal :=
  { result := .error (newError rt "Could not retrieve M-Pesa access token."),
    trace := sent ++ [.logError ("Failed to get M-Pesa access token: " ++ errorMessage rt e)] }

/-- The URL of the OAuth call. -/
def oauthUrl (env : Env) : String :=
  MPESA_API_BASE_URL env ++ "/oauth/v1/generate?grant_type=client_credentials"

/-- The `Authorization` header of the OAuth call: `Basic` followed by
base64 of `key:secret`. -/
def basicAuthorization (env : Env) : String :=
  "Basic " ++ base64 (optText env.MPESA_CONSUMER_KEY ++ ":" ++ optText env.MPESA_CONSUMER_SECRET)

/-- The function `getAccessToken` of the service. -/
def getAccessToken (rt : Runtime) (env : Env) (provider : Provider) : Run JSVal :=
  let consumerKey := env.MPESA_CONSUMER_KEY
  let consumerSecret := env.MPESA_CONSUMER_SECRET
  if !envSet consumerKey || !envSet consumerSecret then
    { result := .error (newError rt "M-Pesa credentials not configured."),
      trace := [.logError
        "M-Pesa consumer key or secret is not defined in environment variables."] }
  else
    let url := oauthUrl env
    let authorization := basicAuthorization env
    match provider.oauth url authorization with
    | .ok _ data =>
      if nullish data then
        tokenFailure rt [.httpGet url authorization] (.withoutResponse
          ("Cannot read properties of " ++ templateText rt data ++ " (reading 'access_token')"))
      else
        { result := .ok (getProp data "access_token"), trace := [.httpGet url authorization] }
    | .httpError _ data => tokenFailure rt [.httpGet url authorization] (.withResponse data)
    | .networkError message =>
      tokenFailure rt [.httpGet url authorization] (.withoutResponse message)

/-- The argument `stkData` of `initiateSTKPush`. -/
structure StkData where
  amount : JSVal
  phone : JSVal
  accountReference : JSVal
  transactionDesc : JSVal

/-- The object literal `payload` of `initiateSTKPush`. -/
def buildPayload (env : Env) (shortCode passkey timestamp : String) (stkData : StkData) :
    Payload :=
  { BusinessShortCode := shortCode
    Password := base64 (shortCode ++ passkey ++ timestamp)
    Timestamp := timestamp
    TransactionType := "CustomerPayBillOnline"
    Amount := stkData.amount
    PartyA := stkData.phone
    PartyB := shortCode
    PhoneNumber := stkData.phone
    CallBackURL := env.MPESA_CALLBACK_URL
    AccountReference := jsOr stkData.accountReference (.str "Test")
    TransactionDesc := jsOr stkData.transactionDesc (.str "Payment for service") }

/-- The `catch` block of `initiateSTKPush`. -/
def pushFailure (rt : Runtime) (sent : List Event) (e : Caught) : Run JSVal :=
  { result := .error (newError rt "Failed to initiate STK Push."),
    trace := sent ++ [.logError ("STK Push failed: " ++ errorMessage rt e)] }

/-- The URL of the payment POST. -/
def stkPushUrl (env : Env) : String :=
  MPESA_API_BASE_URL env ++ "/mpesa/stkpush/v1/processrequest"

/-- The `Authorization` header of the payment POST. -/
def bearerAuthorization (rt : Runtime) (accessToken : JSVal) : String :=
  "Bearer " ++ templateText rt accessToken

/-- The function `initiateSTKPush` of the service. -/
def initiateSTKPush (rt : Runtime) (env : Env) (provider : Provider) (now : UTCInstant)
    (stkData : StkData) : Run JSVal :=
  let tokenRun := getAccessToken rt env provider
  match tokenRun.result with
  | .error e => { result := .error e, trace := tokenRun.trace }
  | .ok accessToken =>
    let timestamp := timestampAt now
    let passkey := env.MPESA_PASSKEY
    let shortCode := env.MPESA_SHORTCODE
    if !envSet passkey || !envSet shortCode then
      { result := .error (newError rt "M-Pesa passkey or shortcode not configured."),
        trace := tokenRun.trace ++ [.logError "M-Pesa passkey or shortcode is not defined."] }
    else
      let payload := buildPayload env (optText shortCode) (optText passkey) timestamp stkData
      let url := stkPushUrl env
      let authorization := bearerAuthorization rt accessToken
      let sent := tokenRun.trace ++ [.httpPost url authorization payload]
      match provider.stkpush url authorization payload with
      | .ok _ data =>
        { result := .ok data,
          trace := sent ++ [.logInfo "STK Push initiated successfully:" (some data)] }
      | .httpError _ data => pushFailure rt sent (.withResponse data)
      | .networkError message => pushFailure rt sent (.withoutResponse message)

end mpesaService

/-! ## `src/controllers/mpesaController.js` and the error handler of `src/index.js` -/

/-- The parts of the incoming request that the handlers read. -/
structure Request where
  body : JSVal
  originalUrl : String
  method : String
  ip : String

/-- The response written by `res.status(code).json(value)`. -/
structure Response where
  status : Nat
  body : JSVal

/-- How a route handler ends: it writes a response, or it calls `next(error)`. -/
inductive Handled where
  | responded (res : Response)
  | next (error : JSError)

/-- A handler's ending together with the effects it performed. -/
structure HandlerRun where
  handled : Handled
  trace : List Event

/-- A run of the controller's push handler: its ending and effects, and the
argument of each invocation of the service's `initiateSTKPush`. -/
structure ControllerRun extends HandlerRun where
  serviceCalls : List mpesaService.StkData

/-- The object `stkData` that the controller's `initiateSTKPush` builds from the
fields it destructures out of `req.body`. -/
def stkDataOf (body : JSVal) : mpesaService.StkData :=
  { amount := getProp body "amount", phone := getProp body "phone",
    accountReference := getProp body "accountReference",
    transactionDesc := getProp body "transactionDesc" }

namespace mpesaController

/-- The handler `initiateSTKPush` of the controller. -/
def initiateSTKPush (rt : Runtime) (env : Env) (provider : Provider) (now : UTCInstant)
    (req : Request) : ControllerRun :=
  if nullish req.body then
    { handled := .next (typeError rt ("Cannot destructure property 'amount' of 'req.body' as it is "
        ++ templateText rt req.body ++ ".")),
      trace := [], serviceCalls := [] }
  else
    let amount := getProp req.body "amount"
    let phone := getProp req.body "phone"
    let accountReference := getProp req.body "accountReference"
    let transactionDesc := getProp req.body "transactionDesc"
    if !truthy amount || !truthy phone then
      { handled := .responded
          { status := 400,
            body := .obj [("message", .str "Amount and phone number are required.")] },
        trace := [], serviceCalls := [] }
    else
      let stkData : mpesaService.StkData :=
        { amount := amount, phone := phone, accountReference := accountReference,
          transactionDesc := transactionDesc }
      let run := mpesaService.initiateSTKPush rt env provider now stkData
      match run.result with
      | .ok result =>
        { handled := .responded { status := 200, body := result },
          trace := run.trace, serviceCalls := [stkData] }
      | .error error =>
        { handled := .next error, trace := run.trace, serviceCalls := [stkData] }

/-- The handler `getAccessToken` of the controller. -/
def getAccessToken (rt : Runtime) (env : Env) (provider : Provider) : HandlerRun :=
  let run := mpesaService.getAccessToken rt env provider
  match run.result with
  | .ok token =>
    { handled := .responded { status := 200, body := .obj [("accessToken", token)] },
      trace := run.trace }
  | .error error => { handled := .next error, trace := run.trace }

end mpesaController

/-- The module constant `isProduction` of `src/index.js`. -/
def isProduction (env : Env) : Bool :=
  env.NODE_ENV == some "production"

/-- The expression `err.status || 500`. -/
def statusOr500 (err : JSError) : Nat :=
  match err.status with
  | some s => if s = 0 then 500 else s
  | none => 500

/-- The expression `err.message || 'Internal Server Error'`. -/
def messageOrDefault (err : JSError) : String :=
  match err.message with
  | some m => if m = "" then "Internal Server Error" else m
  | none => "Internal Server Error"

/-- The value of an optional string property. -/
def optVal : Option String → JSVal
  | some s => .str s
  | none => .undefined

/-- The response written by the global error handler. -/
def errorResponse (env : Env) (err : JSError) : Response :=
  { status := statusOr500 err,
    body := .obj [("error", .obj (("message", .str (messageOrDefault err)) ::
      (if isProduction env then [] else [("stack", optVal err.stack)])))] }

/-- The global error handler: two log lines, then the response. -/
def globalErrorHandler (env : Env) (req : Request) (err : JSError) : Response × List Event :=
  (errorResponse env err,
    [.logError (toString (statusOr500 err) ++ " - " ++ optText err.message ++ " - "
        ++ req.originalUrl ++ " - " ++ req.method ++ " - " ++ req.ip),
      .logError (optText err.stack)])

/-- A handler followed by the global error handler when it calls `next(error)`:
the response the client receives and all effects. -/
def respond (env : Env) (req : Request) (h : HandlerRun) : Response × List Event :=
  match h.handled with
  | .responded res => (res, h.trace)
  | .next error =>
    let r := globalErrorHandler env req error
    (r.1, h.trace ++ r.2)

/-- The route `POST /api/mpesa/stk-push`. -/
def routeStkPush (rt : Runtime) (env : Env) (provider : Provider) (now : UTCInstant)
    (req : Request) : Response × List Event :=
  respond env req (mpesaController.initiateSTKPush rt env provider now req).toHandlerRun

/-- The route `GET /api/mpesa/token`. -/
def routeToken (rt : Runtime) (env : Env) (provider : Provider) (req : Request) :
    Response × List Event :=
  respond env req (mpesaController.getAccessToken rt env provider)

/-! ## Concrete inputs -/

/-- A runtime for concrete runs. -/
def sampleRuntime : Runtime :=
  { jsonText := fun _ => "<json>", display := fun _ => "<value>",
    stackOf := fun m => "Error: " ++ m }

/-- An environment with every variable set, outside production. -/
def sampleEnv : Env :=
  { NODE_ENV := some "development"
    MPESA_CONSUMER_KEY := some "key"
    MPESA_CONSUMER_SECRET := some "secret"
    MPESA_PASSKEY := some "passkey"
    MPESA_SHORTCODE := some "174379"
    MPESA_CALLBACK_URL := some "https://example.com/api/mpesa/callback" }

/-- A provider answering `access_token: T` and then `MerchantRequestID: X`. -/
def sampleProvider : Provider :=
  { oauth := fun _ _ => .ok 200 (.obj [("access_token", .str "T")])
    stkpush := fun _ _ _ => .ok 200 (.obj [("MerchantRequestID", .str "X")]) }

/-- The instant 2024-03-07T09:05:01.042Z. -/
def sampleNow : UTCInstant :=
  { year := 2024, month := 3, day := 7, hour := 9, minute := 5, second := 1, millisecond := 42 }

/-- A push request with the given body. -/
def pushRequest (body : JSVal) : Request :=
  { body := body, originalUrl := "/api/mpesa/stk-push", method := "POST", ip := "127.0.0.1" }

/-- A token request. -/
def tokenRequest : Request :=
  { body := .obj [], originalUrl := "/api/mpesa/token", method := "GET", ip := "127.0.0.1" }

/-- The sample environment without `MPESA_CALLBACK_URL`. -/
def envWithoutCallback : Env :=
  { sampleEnv with MPESA_CALLBACK_URL := none }

/-- The sample environment without `MPESA_PASSKEY`. -/
def envWithoutPasskey : Env :=
  { sampleEnv with MPESA_PASSKEY := none }

/-- The sample environment without `MPESA_CONSUMER_KEY`. -/
def envWithoutKey : Env :=
  { sampleEnv with MPESA_CONSUMER_KEY := none }

/-- A provider whose OAuth endpoint cannot be reached. -/
def unreachableProvider : Provider :=
  { sampleProvider with oauth := fun _ _ => .networkError "connect ECONNREFUSED" }

/-- A provider whose OAuth endpoint answers 401 with an error body. -/
def rejectingProvider : Provider :=
  { sampleProvider with
    oauth := fun _ _ => .httpError 401 (.obj [("errorMessage", .str "Bad credentials")]) }

/-- A provider whose OAuth endpoint answers 200 with the JSON body `null`. -/
def nullTokenProvider : Provider :=
  { sampleProvider with oauth := fun _ _ => .ok 200 .null }

/-- A provider whose OAuth endpoint answers 200 with an empty object. -/
def emptyTokenProvider : Provider :=
  { sampleProvider with oauth := fun _ _ => .ok 200 (.obj []) }

/-- The body `amount: 100, phone: "254700000000"`. -/
def sampleBody : JSVal :=
  .obj [("amount", .num 100), ("phone", .str "254700000000")]

/-- The body `amount: 0, phone: "254700000000"`. -/
def zeroAmountBody : JSVal :=
  .obj [("amount", .num 0), ("phone", .str "254700000000")]

/-- The body `amount: -5, phone: "254700000000"`. -/
def negativeAmountBody : JSVal :=
  .obj [("amount", .num (-5)), ("phone", .str "254700000000")]

/-- Whether an `axios` call was rejected. -/
def HttpResult.isFailure : HttpResult → Bool
  | .ok _ _ => false
  | _ => true

/-! ## Lemmas: the timestamp -/

theorem digitChar_isDigit (d : Nat) : (digitChar d).isDigit = true := by
  unfold digitChar
  have h : d % 10 < 10 := Nat.mod_lt _ (by decide)
  generalize d % 10 = k at h
  interval_cases k <;> decide

theorem timestampAt_data_of_four_digit_year (t : UTCInstant) (hy : 0 ≤ t.year ∧ t.year ≤ 9999) :
    (timestampAt t).data = pad4 t.year.toNat ++ pad2 t.month ++ pad2 t.day ++ pad2 t.hour
      ++ pad2 t.minute ++ pad2 t.second := by
  have hd : ('-' : Char).isDigit = false := by decide
  have hT : ('T' : Char).isDigit = false := by decide
  have hc : (':' : Char).isDigit = false := by decide
  have hp : ('.' : Char).isDigit = false := by decide
  have hZ : ('Z' : Char).isDigit = false := by decide
  simp [timestampAt, sliceOffLast3, stripNonDigits, toISOString, isoYear, hy, pad4, pad2, pad3,
    List.filter_cons, digitChar_isDigit, hd, hT, hc, hp, hZ]

theorem natDigitChar_eq : ∀ m, m < 10 → Nat.digitChar m = digitChar m := by decide

theorem digitChar_mod (n : Nat) : digitChar (n % 10) = digitChar n := by
  simp [digitChar]

theorem toDigitsCore_step (fuel n : Nat) (ds : List Char) :
    Nat.toDigitsCore 10 (fuel + 1) n ds
      = if n / 10 = 0 then digitChar n :: ds
        else Nat.toDigitsCore 10 fuel (n / 10) (digitChar n :: ds) := by
  have h : Nat.digitChar (n % 10) = digitChar n := by
    rw [natDigitChar_eq _ (Nat.mod_lt _ (by decide)), digitChar_mod]
  simp only [Nat.toDigitsCore, h]

/-- The decimal digits of a number below 10000. -/
theorem toDigits_lt_10000 (n : Nat) (h : n < 10000) :
    Nat.toDigits 10 n =
      if n < 10 then [digitChar n]
      else if n < 100 then [digitChar (n / 10), digitChar n]
      else if n < 1000 then [digitChar (n / 100), digitChar (n / 10), digitChar n]
      else [digitChar (n / 1000), digitChar (n / 100), digitChar (n / 10), digitChar n] := by
  unfold Nat.toDigits
  split_ifs with h1 h2 h3
  · rw [toDigitsCore_step, if_pos (by omega)]
  · obtain ⟨k, rfl⟩ : ∃ k, n = k + 1 := ⟨n - 1, by omega⟩
    rw [toDigitsCore_step, if_neg (by omega), toDigitsCore_step, if_pos (by omega)]
  · obtain ⟨k, rfl⟩ : ∃ k, n = k + 2 := ⟨n - 2, by omega⟩
    rw [toDigitsCore_step, if_neg (by omega), toDigitsCore_step, if_neg (by omega),
      toDigitsCore_step, if_pos (by omega)]
    simp [Nat.div_div_eq_div_mul]
  · obtain ⟨k, rfl⟩ : ∃ k, n = k + 3 := ⟨n - 3, by omega⟩
    rw [toDigitsCore_step, if_neg (by omega), toDigitsCore_step, if_neg (by omega),
      toDigitsCore_step, if_neg (by omega), toDigitsCore_step, if_pos (by omega)]
    simp [Nat.div_div_eq_div_mul]

theorem digitChar_zero_of_lt (n d : Nat) (h : n < d) : digitChar (n / d) = '0' := by
  rw [Nat.div_eq_of_lt h]; rfl

/-- Four digits by division are the zero-padded decimal numeral. -/
theorem pad4_eq_zeroPad (n : Nat) (h : n < 10000) : pad4 n = zeroPad 4 n := by
  unfold zeroPad Nat.repr
  rw [toDigits_lt_10000 n h]
  split_ifs with h1 h2 h3
  · simp [pad4, List.asString, String.length, digitChar_zero_of_lt n 1000 (by omega),
      digitChar_zero_of_lt n 100 (by omega), digitChar_zero_of_lt n 10 (by omega),
      List.replicate]
  · simp [pad4, List.asString, String.length, digitChar_zero_of_lt n 1000 (by omega),
      digitChar_zero_of_lt n 100 (by omega), List.replicate]
  · simp [pad4, List.asString, String.length, digitChar_zero_of_lt n 1000 (by omega),
      List.replicate]
  · simp [pad4, List.asString, String.length]

/-- Two digits by division are the zero-padded decimal numeral. -/
theorem pad2_eq_zeroPad (n : Nat) (h : n < 100) : pad2 n = zeroPad 2 n := by
  unfold zeroPad Nat.repr
  rw [toDigits_lt_10000 n (by omega)]
  split_ifs with h1
  · simp [pad2, List.asString, String.length, digitChar_zero_of_lt n 10 (by omega),
      List.replicate]
  · simp [pad2, List.asString, String.length]

/-- The compact text of an instant with a four-digit year, digit by digit. -/
theorem compactDateTime_data (t : UTCInstant) (hwf : t.WellFormed)
    (hy : 0 ≤ t.year ∧ t.year ≤ 9999) :
    (compactDateTime t).data = pad4 t.year.toNat ++ pad2 t.month ++ pad2 t.day ++ pad2 t.hour
      ++ pad2 t.minute ++ pad2 t.second := by
  obtain ⟨_, hmo, _, hd, hh, hmi, hs, _⟩ := hwf
  unfold compactDateTime
  rw [pad4_eq_zeroPad _ (by omega), pad2_eq_zeroPad _ (by omega : t.month < 100),
    pad2_eq_zeroPad _ (by omega : t.day < 100), pad2_eq_zeroPad _ (by omega : t.hour < 100),
    pad2_eq_zeroPad _ (by omega : t.minute < 100), pad2_eq_zeroPad _ (by omega : t.second < 100)]

/-! ## Lemmas: base64 -/

theorem base64Value_base64Char : ∀ i, i < 64 → base64Value (base64Char i) = some i := by
  decide

theorem base64Char_ne_pad : ∀ i, i < 64 → base64Char i ≠ '=' := by
  decide

/-- Decoding undoes encoding on every list of bytes. -/
theorem base64DecodeChars_base64Chars (bs : List Nat) (hbs : ∀ b ∈ bs, b < 256) :
    base64DecodeChars (base64Chars bs) = some bs := by
  induction bs using base64Chars.induct with
  | case1 => rfl
  | case2 a =>
    have ha : a < 256 := hbs a (by simp)
    have h1 := base64Value_base64Char (a / 4) (by omega)
    have h2 := base64Value_base64Char (a % 4 * 16) (by omega)
    simp only [base64Chars, base64DecodeChars, h1, h2, if_true, Option.bind_eq_bind,
      Option.some_bind, Option.pure_def]
    simp
    omega
  | case3 a b =>
    have ha : a < 256 := hbs a (by simp)
    have hb : b < 256 := hbs b (by simp)
    have h1 := base64Value_base64Char (a / 4) (by omega)
    have h2 := base64Value_base64Char (a % 4 * 16 + b / 16) (by omega)
    have h3 := base64Value_base64Char (b % 16 * 4) (by omega)
    have n3 := base64Char_ne_pad (b % 16 * 4) (by omega)
    simp only [base64Chars, base64DecodeChars, h1, h2, h3, n3, if_true, if_false,
      Option.bind_eq_bind, Option.some_bind, Option.pure_def]
    simp
    omega
  | case4 a b c rest ih =>
    have ha : a < 256 := hbs a (by simp)
    have hb : b < 256 := hbs b (by simp)
    have hc : c < 256 := hbs c (by simp)
    have hrest : ∀ x ∈ rest, x < 256 := fun x hx => hbs x (by simp [hx])
    have h1 := base64Value_base64Char (a / 4) (by omega)
    have h2 := base64Value_base64Char (a % 4 * 16 + b / 16) (by omega)
    have h3 := base64Value_base64Char (b % 16 * 4 + c / 64) (by omega)
    have h4 := base64Value_base64Char (c % 64) (by omega)
    have n4 := base64Char_ne_pad (c % 64) (by omega)
    simp only [base64Chars, base64DecodeChars, h1, h2, h3, h4, n4, ih hrest, if_false,
      Option.bind_eq_bind, Option.some_bind, Option.pure_def]
    simp
    omega

/-! ## Lemmas: UTF-8 -/

theorem char_toNat_lt (c : Char) : c.toNat < 0x110000 := by
  have h := c.valid
  simp only [UInt32.isValidChar, Nat.isValidChar] at h
  unfold Char.toNat
  omega

theorem utf8EncodeChar_lt (c : Char) : ∀ b ∈ utf8EncodeChar c, b < 256 := by
  have h := char_toNat_lt c
  unfold utf8EncodeChar
  intro b hb
  simp only at hb
  split_ifs at hb <;> simp at hb <;> omega

theorem utf8Bytes_lt (s : String) : ∀ b ∈ utf8Bytes s, b < 256 := by
  intro b hb
  simp only [utf8Bytes, List.mem_flatMap] at hb
  obtain ⟨c, _, hc⟩ := hb
  exact utf8EncodeChar_lt c b hc

theorem utf8DecodeChar_encodeChar (c : Char) (rest : List Nat) :
    utf8DecodeChar (utf8EncodeChar c ++ rest) = some (c, rest) := by
  unfold utf8EncodeChar
  simp only
  split_ifs with h1 h2 h3
  · simp [utf8DecodeChar, h1]
  · have e : (0xC0 + c.toNat / 64 - 0xC0) * 64 + (0x80 + c.toNat % 64 - 0x80) = c.toNat := by omega
    have g1 : ¬ (0xC0 + c.toNat / 64 < 0x80) := by omega
    have g2 : 0xC0 + c.toNat / 64 < 0xE0 := by omega
    simp only [List.cons_append, List.nil_append, utf8DecodeChar, g1, g2, if_true, if_false, e,
      Char.ofNat_toNat]
  · have e : (0xE0 + c.toNat / 4096 - 0xE0) * 4096 + (0x80 + c.toNat / 64 % 64 - 0x80) * 64
        + (0x80 + c.toNat % 64 - 0x80) = c.toNat := by omega
    have g1 : ¬ (0xE0 + c.toNat / 4096 < 0x80) := by omega
    have g2 : ¬ (0xE0 + c.toNat / 4096 < 0xE0) := by omega
    have g3 : 0xE0 + c.toNat / 4096 < 0xF0 := by omega
    simp only [List.cons_append, List.nil_append, utf8DecodeChar, g1, g2, g3, if_true, if_false,
      e, Char.ofNat_toNat]
  · have e : (0xF0 + c.toNat / 262144 - 0xF0) * 262144 + (0x80 + c.toNat / 4096 % 64 - 0x80) * 4096
        + (0x80 + c.toNat / 64 % 64 - 0x80) * 64 + (0x80 + c.toNat % 64 - 0x80) = c.toNat := by
      omega
    have g1 : ¬ (0xF0 + c.toNat / 262144 < 0x80) := by omega
    have g2 : ¬ (0xF0 + c.toNat / 262144 < 0xE0) := by omega
    have g3 : ¬ (0xF0 + c.toNat / 262144 < 0xF0) := by omega
    simp only [List.cons_append, List.nil_append, utf8DecodeChar, g1, g2, g3, if_false,
      e, Char.ofNat_toNat]

theorem utf8EncodeChar_ne_nil (c : Char) : utf8EncodeChar c ≠ [] := by
  unfold utf8EncodeChar
  simp only
  split_ifs <;> simp

theorem utf8DecodeFuel_flatMap (cs : List Char) :
    ∀ fuel, cs.length ≤ fuel → utf8DecodeFuel fuel (cs.flatMap utf8EncodeChar) = some cs := by
  induction cs with
  | nil => intro fuel _; cases fuel <;> rfl
  | cons c cs ih =>
    intro fuel hfuel
    obtain ⟨n, rfl⟩ : ∃ n, fuel = n + 1 := ⟨fuel - 1, by simp at hfuel; omega⟩
    have hstep := utf8DecodeChar_encodeChar c (cs.flatMap utf8EncodeChar)
    rw [List.flatMap_cons]
    cases hbs : utf8EncodeChar c ++ cs.flatMap utf8EncodeChar with
    | nil => exact absurd (List.append_eq_nil.mp hbs).1 (utf8EncodeChar_ne_nil c)
    | cons b bs =>
      rw [hbs] at hstep
      simp only [utf8DecodeFuel, hstep]
      rw [ih n (by simp at hfuel; omega)]
      rfl

theorem length_le_flatMap_utf8 (cs : List Char) :
    cs.length ≤ (cs.flatMap utf8EncodeChar).length := by
  induction cs with
  | nil => simp
  | cons c cs ih =>
    have h : 1 ≤ (utf8EncodeChar c).length := by
      cases hc : utf8EncodeChar c with
      | nil => exact absurd hc (utf8EncodeChar_ne_nil c)
      | cons _ _ => simp
    simp only [List.flatMap_cons, List.length_append, List.length_cons]
    omega

/-- Reading back the UTF-8 bytes of a text gives the text. -/
theorem utf8Decode_utf8Bytes (s : String) : utf8Decode (utf8Bytes s) = some s := by
  unfold utf8Decode utf8Bytes
  rw [utf8DecodeFuel_flatMap s.data _ (length_le_flatMap_utf8 s.data)]
  rfl

/-- Base64-decoding the base64 of a text gives its UTF-8 bytes. -/
theorem base64Decode_base64 (text : String) : base64Decode (base64 text) = some (utf8Bytes text) :=
  base64DecodeChars_base64Chars (utf8Bytes text) (utf8Bytes_lt text)

/-- Base64-decoding the base64 of a text and reading it as UTF-8 gives the
text. -/
theorem base64DecodeText_base64 (text : String) : base64DecodeText (base64 text) = some text := by
  unfold base64DecodeText
  rw [base64Decode_base64]
  exact utf8Decode_utf8Bytes text

/-! ## Lemmas: the service -/

theorem envSet_eq_true {v : Option String} (h : envSet v = true) : ∃ s, v = some s ∧ s ≠ "" := by
  cases v with
  | none => simp [envSet] at h
  | some s => exact ⟨s, rfl, by simpa [envSet] using h⟩

/-- The token call never POSTs. -/
theorem getAccessToken_trace_not_post (rt : Runtime) (env : Env) (provider : Provider) :
    ∀ ev ∈ (mpesaService.getAccessToken rt env provider).trace, ev.isPost = false := by
  intro ev hev
  unfold mpesaService.getAccessToken at hev
  simp only at hev
  split at hev
  · simp at hev; subst hev; rfl
  · split at hev
    · split at hev
      · simp [mpesaService.tokenFailure] at hev
        rcases hev with rfl | rfl <;> rfl
      · simp at hev; subst hev; rfl
    · simp [mpesaService.tokenFailure] at hev
      rcases hev with rfl | rfl <;> rfl
    · simp [mpesaService.tokenFailure] at hev
      rcases hev with rfl | rfl <;> rfl

/-- Every payment POST of `initiateSTKPush` is the one the code builds: passkey
and shortcode are set, the token call returned, and the request is the URL,
bearer header and payload computed from them. -/
theorem post_mem_trace (rt : Runtime) (env : Env) (provider : Provider) (now : UTCInstant)
    (stkData : mpesaService.StkData) (url authorization : String) (payload : Payload)
    (h : Event.httpPost url authorization payload
      ∈ (mpesaService.initiateSTKPush rt env provider now stkData).trace) :
    envSet env.MPESA_PASSKEY = true ∧ envSet env.MPESA_SHORTCODE = true ∧
      ∃ accessToken, (mpesaService.getAccessToken rt env provider).result = .ok accessToken ∧
        url = mpesaService.stkPushUrl env ∧
        authorization = mpesaService.bearerAuthorization rt accessToken ∧
        payload = mpesaService.buildPayload env (optText env.MPESA_SHORTCODE)
          (optText env.MPESA_PASSKEY) (timestampAt now) stkData := by
  have hno := getAccessToken_trace_not_post rt env provider
  unfold mpesaService.initiateSTKPush at h
  simp only at h
  split at h
  · exact absurd (hno _ h) (by simp [Event.isPost])
  · rename_i accessToken htok
    split at h
    · simp only [List.mem_append, List.mem_singleton] at h
      rcases h with h | h
      · exact absurd (hno _ h) (by simp [Event.isPost])
      · cases h
    · rename_i hset
      simp only [Bool.or_eq_true, Bool.not_eq_true', not_or, Bool.not_eq_false] at hset
      have key : ∀ (tail : List Event), (∀ ev ∈ tail, ev.isPost = false) →
          Event.httpPost url authorization payload ∈
            (mpesaService.getAccessToken rt env provider).trace ++
              [Event.httpPost (mpesaService.stkPushUrl env)
                (mpesaService.bearerAuthorization rt accessToken)
                (mpesaService.buildPayload env (optText env.MPESA_SHORTCODE)
                  (optText env.MPESA_PASSKEY) (timestampAt now) stkData)] ++ tail →
          url = mpesaService.stkPushUrl env ∧
            authorization = mpesaService.bearerAuthorization rt accessToken ∧
            payload = mpesaService.buildPayload env (optText env.MPESA_SHORTCODE)
              (optText env.MPESA_PASSKEY) (timestampAt now) stkData := by
        intro tail htail hmem
        simp only [List.mem_append, List.mem_singleton] at hmem
        rcases hmem with (hmem | hmem) | hmem
        · exact absurd (hno _ hmem) (by simp [Event.isPost])
        · injection hmem with h1 h2 h3
          exact ⟨h1, h2, h3⟩
        · exact absurd (htail _ hmem) (by simp [Event.isPost])
      refine ⟨hset.1, hset.2, accessToken, htok, ?_⟩
      split at h
      · exact key [_] (by intro ev hev; simp at hev; subst hev; rfl) h
      · exact key [_] (by intro ev hev; simp at hev; subst hev; rfl) h
      · exact key [_] (by intro ev hev; simp at hev; subst hev; rfl) h

/-- The run of `getAccessToken` on a 2xx response with a body that is not
`null` or `undefined`. -/
theorem getAccessToken_of_ok (rt : Runtime) (env : Env) (provider : Provider) (status : Nat)
    (data : JSVal) (hkey : envSet env.MPESA_CONSUMER_KEY = true)
    (hsecret : envSet env.MPESA_CONSUMER_SECRET = true)
    (htoken : provider.oauth (mpesaService.oauthUrl env) (mpesaService.basicAuthorization env)
      = .ok status data)
    (hdata : nullish data = false) :
    mpesaService.getAccessToken rt env provider
      = { result := .ok (getProp data "access_token"),
          trace := [.httpGet (mpesaService.oauthUrl env) (mpesaService.basicAuthorization env)] } := by
  simp [mpesaService.getAccessToken, hkey, hsecret, htoken, hdata]

/-- The run of `getAccessToken` on a rejected OAuth call: the generic error. -/
theorem getAccessToken_result_of_failure (rt : Runtime) (env : Env) (provider : Provider)
    (hfail : (provider.oauth (mpesaService.oauthUrl env)
      (mpesaService.basicAuthorization env)).isFailure = true) :
    (mpesaService.getAccessToken rt env provider).result
      = if (!envSet env.MPESA_CONSUMER_KEY || !envSet env.MPESA_CONSUMER_SECRET) = true
        then .error (newError rt "M-Pesa credentials not configured.")
        else .error (newError rt "Could not retrieve M-Pesa access token.") := by
  unfold mpesaService.getAccessToken
  simp only
  split
  · rfl
  · split
    · rename_i h
      rw [h] at hfail
      exact absurd hfail (by simp [HttpResult.isFailure])
    · rfl
    · rfl

/-- The token run depends on the provider only through its OAuth endpoint. -/
theorem getAccessToken_congr (rt : Runtime) (env : Env) (p1 p2 : Provider)
    (h : p1.oauth = p2.oauth) :
    mpesaService.getAccessToken rt env p1 = mpesaService.getAccessToken rt env p2 := by
  unfold mpesaService.getAccessToken
  rw [h]

/-- The response of the push route is decided by the result of the service. -/
theorem routeStkPush_fst_congr (rt : Runtime) (env : Env) (p1 p2 : Provider) (now : UTCInstant)
    (req : Request)
    (h : (mpesaService.initiateSTKPush rt env p1 now (stkDataOf req.body)).result
      = (mpesaService.initiateSTKPush rt env p2 now (stkDataOf req.body)).result) :
    (routeStkPush rt env p1 now req).1 = (routeStkPush rt env p2 now req).1 := by
  unfold routeStkPush mpesaController.initiateSTKPush
  simp only
  split
  · rfl
  · split
    · rfl
    · have h' := h
      unfold stkDataOf at h'
      rw [h']
      cases (mpesaService.initiateSTKPush rt env p2 now
        { amount := getProp req.body "amount", phone := getProp req.body "phone",
          accountReference := getProp req.body "accountReference",
          transactionDesc := getProp req.body "transactionDesc" }).result <;> rfl

/-- The response of the token route is decided by the result of the service. -/
theorem routeToken_fst_congr (rt : Runtime) (env : Env) (p1 p2 : Provider) (req : Request)
    (h : (mpesaService.getAccessToken rt env p1).result
      = (mpesaService.getAccessToken rt env p2).result) :
    (routeToken rt env p1 req).1 = (routeToken rt env p2 req).1 := by
  unfold routeToken mpesaController.getAccessToken
  simp only
  rw [h]
  cases (mpesaService.getAccessToken rt env p2).result <;> rfl

/-- A payment POST among the effects of the push route was sent by the
service for the `stkData` of the body, and the body passed validation. -/
theorem post_mem_route (rt : Runtime) (env : Env) (provider : Provider) (now : UTCInstant)
    (req : Request) (url authorization : String) (payload : Payload)
    (h : Event.httpPost url authorization payload ∈ (routeStkPush rt env provider now req).2) :
    truthy (getProp req.body "amount") = true ∧ truthy (getProp req.body "phone") = true ∧
      Event.httpPost url authorization payload
        ∈ (mpesaService.initiateSTKPush rt env provider now (stkDataOf req.body)).trace := by
  unfold routeStkPush mpesaController.initiateSTKPush at h
  simp only at h
  split at h
  · simp [respond, globalErrorHandler] at h
  · split at h
    · simp [respond] at h
    · rename_i hvalid
      simp only [Bool.or_eq_true, Bool.not_eq_true', not_or, Bool.not_eq_false] at hvalid
      refine ⟨hvalid.1, hvalid.2, ?_⟩
      unfold stkDataOf
      split at h
      · simpa [respond] using h
      · simp only [respond, globalErrorHandler, List.mem_append, List.mem_cons,
          List.mem_singleton, List.not_mem_nil, or_false] at h
        rcases h with h | h | h
        · exact h
        · cases h
        · cases h

/-! ## The claims -/

/-- C1, as stated, fails: when the request carries no parsed body (`req.body`
is `undefined`), `amount` and `phone` are missing, the destructuring of
`req.body` throws inside the `try` block, the handler calls `next(error)` and
the client receives status 500, not 400. -/
theorem C1_absent_body_counterexample :
    getProp (pushRequest .undefined).body "amount" = .undefined
      ∧ getProp (pushRequest .undefined).body "phone" = .undefined
      ∧ (mpesaController.initiateSTKPush sampleRuntime sampleEnv sampleProvider sampleNow
          (pushRequest .undefined)).handled
        = .next (typeError sampleRuntime
            "Cannot destructure property 'amount' of 'req.body' as it is undefined.")
      ∧ (routeStkPush sampleRuntime sampleEnv sampleProvider sampleNow
          (pushRequest .undefined)).1.status = 500
      ∧ (routeStkPush sampleRuntime sampleEnv sampleProvider sampleNow
          (pushRequest .undefined)).1.status ≠ 400 := by
  refine ⟨rfl, rfl, ?_, ?_, ?_⟩
  · simp [mpesaController.initiateSTKPush, pushRequest, nullish, templateText]
  · simp [routeStkPush, respond, mpesaController.initiateSTKPush, pushRequest, nullish,
      globalErrorHandler, errorResponse, statusOr500, typeError]
  · simp [routeStkPush, respond, mpesaController.initiateSTKPush, pushRequest, nullish,
      globalErrorHandler, errorResponse, statusOr500, typeError]

/-- C1 (amended): when the request has a parsed body (`req.body` is neither
`undefined` nor `null`) that lacks `amount` or lacks `phone`, the push handler
answers with status 400 and the body
`message: "Amount and phone number are required."`, the service's
`initiateSTKPush` is not invoked, and nothing is logged or sent. -/
theorem C1_missing_amount_or_phone_is_400 (rt : Runtime) (env : Env) (provider : Provider)
    (now : UTCInstant) (req : Request) (hbody : nullish req.body = false)
    (hmissing : getProp req.body "amount" = .undefined ∨ getProp req.body "phone" = .undefined) :
    (mpesaController.initiateSTKPush rt env provider now req).handled
        = .responded
          (Response.mk 400 (.obj [("message", .str "Amount and phone number are required.")]))
      ∧ (mpesaController.initiateSTKPush rt env provider now req).serviceCalls = []
      ∧ (mpesaController.initiateSTKPush rt env provider now req).trace = []
      ∧ (routeStkPush rt env provider now req).1
        = Response.mk 400 (.obj [("message", .str "Amount and phone number are required.")])
      ∧ (routeStkPush rt env provider now req).2 = [] := by
  have hfalsy : (!truthy (getProp req.body "amount") || !truthy (getProp req.body "phone"))
      = true := by
    rcases hmissing with h | h <;> simp [h, truthy]
  simp [routeStkPush, respond, mpesaController.initiateSTKPush, hbody, hfalsy]

/-- C1 (amended) at the body `phone: "254700000000"` (no amount). -/
theorem C1_missing_amount_or_phone_is_400_witness :
    (mpesaController.initiateSTKPush sampleRuntime sampleEnv sampleProvider sampleNow
        (pushRequest (.obj [("phone", .str "254700000000")]))).handled
        = .responded
          (Response.mk 400 (.obj [("message", .str "Amount and phone number are required.")]))
      ∧ (mpesaController.initiateSTKPush sampleRuntime sampleEnv sampleProvider sampleNow
        (pushRequest (.obj [("phone", .str "254700000000")]))).serviceCalls = []
      ∧ (mpesaController.initiateSTKPush sampleRuntime sampleEnv sampleProvider sampleNow
        (pushRequest (.obj [("phone", .str "254700000000")]))).trace = []
      ∧ (routeStkPush sampleRuntime sampleEnv sampleProvider sampleNow
        (pushRequest (.obj [("phone", .str "254700000000")]))).1
        = Response.mk 400 (.obj [("message", .str "Amount and phone number are required.")])
      ∧ (routeStkPush sampleRuntime sampleEnv sampleProvider sampleNow
        (pushRequest (.obj [("phone", .str "254700000000")]))).2 = [] :=
  C1_missing_amount_or_phone_is_400 sampleRuntime sampleEnv sampleProvider sampleNow
    (pushRequest (.obj [("phone", .str "254700000000")])) rfl (Or.inl rfl)

/-- C3, as stated, fails for an instant whose year needs five digits: at
10000-01-01T00:00:00.000Z the ISO string carries the expanded year
`+010000`, and the timestamp has 16 digits instead of 14. -/
theorem C3_expanded_year_counterexample :
    UTCInstant.WellFormed ⟨10000, 1, 1, 0, 0, 0, 0⟩
      ∧ toISOString ⟨10000, 1, 1, 0, 0, 0, 0⟩ = "+010000-01-01T00:00:00.000Z"
      ∧ timestampAt ⟨10000, 1, 1, 0, 0, 0, 0⟩ = "0100000101000000"
      ∧ (timestampAt ⟨10000, 1, 1, 0, 0, 0, 0⟩).length ≠ 14 := by
  refine ⟨by unfold UTCInstant.WellFormed; decide, by decide, by decide, by decide⟩

/-- C3 (amended): for every instant whose UTC year is between 0 and 9999, the
timestamp is the text `YYYYMMDDHHmmss` of the instant's year, month, day,
hour, minute and second, and it consists of exactly 14 decimal digits. -/
theorem C3_timestamp_is_compact_date_time (now : UTCInstant) (hnow : now.WellFormed)
    (hyear : 0 ≤ now.year ∧ now.year ≤ 9999) :
    timestampAt now = compactDateTime now
      ∧ (timestampAt now).length = 14
      ∧ ∀ c ∈ (timestampAt now).data, c.isDigit = true := by
  have hdata := timestampAt_data_of_four_digit_year now hyear
  refine ⟨?_, ?_, ?_⟩
  · exact String.ext (hdata.trans (compactDateTime_data now hnow hyear).symm)
  · show (timestampAt now).data.length = 14
    rw [hdata]
    rfl
  · intro c hc
    rw [hdata] at hc
    simp only [pad4, pad2, List.cons_append, List.nil_append, List.mem_cons,
      List.mem_singleton, List.not_mem_nil, or_false] at hc
    rcases hc with h | h | h | h | h | h | h | h | h | h | h | h | h | h <;>
      (subst h; exact digitChar_isDigit _)

/-- C3 (amended) at 2024-03-07T09:05:01.042Z, where the timestamp is
`20240307090501`. -/
theorem C3_timestamp_is_compact_date_time_witness :
    timestampAt sampleNow = "20240307090501"
      ∧ timestampAt sampleNow = compactDateTime sampleNow
      ∧ (timestampAt sampleNow).length = 14
      ∧ ∀ c ∈ (timestampAt sampleNow).data, c.isDigit = true :=
  ⟨by decide, C3_timestamp_is_compact_date_time sampleNow
    (by unfold UTCInstant.WellFormed sampleNow; decide) (by decide)⟩

/-- C4: in every payment POST of `initiateSTKPush`, `BusinessShortCode` and
`PartyB` are the configured shortcode, `Timestamp` is the timestamp computed
for the call, `Password` is base64 of shortcode, passkey and timestamp
concatenated, and base64-decoding `Password` gives back `BusinessShortCode`
followed by the passkey followed by `Timestamp`. -/
theorem C4_password_is_base64_of_shortcode_passkey_timestamp (rt : Runtime) (env : Env)
    (provider : Provider) (now : UTCInstant) (stkData : mpesaService.StkData)
    (url authorization : String) (payload : Payload)
    (hpost : Event.httpPost url authorization payload
      ∈ (mpesaService.initiateSTKPush rt env provider now stkData).trace) :
    ∃ shortCode passkey, env.MPESA_SHORTCODE = some shortCode ∧ env.MPESA_PASSKEY = some passkey
      ∧ payload.BusinessShortCode = shortCode ∧ payload.PartyB = shortCode
      ∧ payload.Timestamp = timestampAt now
      ∧ payload.Password = base64 (shortCode ++ passkey ++ payload.Timestamp)
      ∧ base64DecodeText payload.Password
        = some (payload.BusinessShortCode ++ passkey ++ payload.Timestamp) := by
  obtain ⟨hpk, hsc, _, _, _, _, hpayload⟩ :=
    post_mem_trace rt env provider now stkData url authorization payload hpost
  obtain ⟨passkey, hpk, _⟩ := envSet_eq_true hpk
  obtain ⟨shortCode, hsc, _⟩ := envSet_eq_true hsc
  subst hpayload
  refine ⟨shortCode, passkey, hsc, hpk, ?_⟩
  simp only [hsc, hpk, optText, mpesaService.buildPayload, true_and]
  exact base64DecodeText_base64 _

/-- C4 on the run with every variable set and a provider that accepts. -/
theorem C4_password_is_base64_of_shortcode_passkey_timestamp_witness :
    ∃ shortCode passkey, sampleEnv.MPESA_SHORTCODE = some shortCode
      ∧ sampleEnv.MPESA_PASSKEY = some passkey
      ∧ (mpesaService.buildPayload sampleEnv "174379" "passkey" (timestampAt sampleNow)
          ⟨.num 100, .str "254700000000", .undefined, .undefined⟩).BusinessShortCode = shortCode
      ∧ (mpesaService.buildPayload sampleEnv "174379" "passkey" (timestampAt sampleNow)
          ⟨.num 100, .str "254700000000", .undefined, .undefined⟩).PartyB = shortCode
      ∧ (mpesaService.buildPayload sampleEnv "174379" "passkey" (timestampAt sampleNow)
          ⟨.num 100, .str "254700000000", .undefined, .undefined⟩).Timestamp = timestampAt sampleNow
      ∧ (mpesaService.buildPayload sampleEnv "174379" "passkey" (timestampAt sampleNow)
          ⟨.num 100, .str "254700000000", .undefined, .undefined⟩).Password
        = base64 (shortCode ++ passkey ++
          (mpesaService.buildPayload sampleEnv "174379" "passkey" (timestampAt sampleNow)
            ⟨.num 100, .str "254700000000", .undefined, .undefined⟩).Timestamp)
      ∧ base64DecodeText
          (mpesaService.buildPayload sampleEnv "174379" "passkey" (timestampAt sampleNow)
            ⟨.num 100, .str "254700000000", .undefined, .undefined⟩).Password
        = some ((mpesaService.buildPayload sampleEnv "174379" "passkey" (timestampAt sampleNow)
            ⟨.num 100, .str "254700000000", .undefined, .undefined⟩).BusinessShortCode ++ passkey
          ++ (mpesaService.buildPayload sampleEnv "174379" "passkey" (timestampAt sampleNow)
            ⟨.num 100, .str "254700000000", .undefined, .undefined⟩).Timestamp) :=
  C4_password_is_base64_of_shortcode_passkey_timestamp sampleRuntime sampleEnv sampleProvider
    sampleNow ⟨.num 100, .str "254700000000", .undefined, .undefined⟩
    (mpesaService.stkPushUrl sampleEnv)
    (mpesaService.bearerAuthorization sampleRuntime (.str "T"))
    (mpesaService.buildPayload sampleEnv "174379" "passkey" (timestampAt sampleNow)
      ⟨.num 100, .str "254700000000", .undefined, .undefined⟩)
    (by simp [mpesaService.initiateSTKPush, mpesaService.getAccessToken, sampleEnv, sampleProvider,
      envSet, nullish, getProp, optText])

/-- C5: with the consumer key or the consumer secret absent, `getAccessToken`
throws `M-Pesa credentials not configured.` without any outbound HTTP call,
and `GET /api/mpesa/token` answers 500 with a non-empty `error.message`. -/
theorem C5_missing_credentials_fail_without_http (rt : Runtime) (env : Env) (provider : Provider)
    (req : Request)
    (habsent : env.MPESA_CONSUMER_KEY = none ∨ env.MPESA_CONSUMER_SECRET = none) :
    (mpesaService.getAccessToken rt env provider).result
        = .error (newError rt "M-Pesa credentials not configured.")
      ∧ (∀ ev ∈ (mpesaService.getAccessToken rt env provider).trace, ev.isHttp = false)
      ∧ (routeToken rt env provider req).1.status = 500
      ∧ (∃ m, getProp (getProp (routeToken rt env provider req).1.body "error") "message" = .str m
          ∧ m ≠ "")
      ∧ ∀ ev ∈ (routeToken rt env provider req).2, ev.isHttp = false := by
  have hunset : (!envSet env.MPESA_CONSUMER_KEY || !envSet env.MPESA_CONSUMER_SECRET) = true := by
    rcases habsent with h | h <;> simp [h, envSet]
  have hrun : mpesaService.getAccessToken rt env provider
      = { result := .error (newError rt "M-Pesa credentials not configured."),
          trace := [.logError
            "M-Pesa consumer key or secret is not defined in environment variables."] } := by
    simp [mpesaService.getAccessToken, hunset]
  refine ⟨by rw [hrun], ?_, ?_, ?_, ?_⟩
  · intro ev hev
    rw [hrun] at hev
    simp at hev
    subst hev
    rfl
  · simp [routeToken, respond, mpesaController.getAccessToken, hrun, globalErrorHandler,
      errorResponse, statusOr500, newError]
  · refine ⟨"M-Pesa credentials not configured.", ?_, by decide⟩
    simp [routeToken, respond, mpesaController.getAccessToken, hrun, globalErrorHandler,
      errorResponse, messageOrDefault, newError, getProp, List.lookup]
  · intro ev hev
    simp [routeToken, respond, mpesaController.getAccessToken, hrun, globalErrorHandler] at hev
    rcases hev with rfl | rfl | rfl <;> rfl

/-- C5 on the sample environment without its consumer key. -/
theorem C5_missing_credentials_fail_without_http_witness :
    (mpesaService.getAccessToken sampleRuntime envWithoutKey sampleProvider).result
        = .error (newError sampleRuntime "M-Pesa credentials not configured.")
      ∧ (∀ ev ∈ (mpesaService.getAccessToken sampleRuntime envWithoutKey sampleProvider).trace,
          ev.isHttp = false)
      ∧ (routeToken sampleRuntime envWithoutKey sampleProvider tokenRequest).1.status = 500
      ∧ (∃ m, getProp (getProp
            (routeToken sampleRuntime envWithoutKey sampleProvider tokenRequest).1.body "error")
            "message" = .str m ∧ m ≠ "")
      ∧ ∀ ev ∈ (routeToken sampleRuntime envWithoutKey sampleProvider tokenRequest).2,
          ev.isHttp = false :=
  C5_missing_credentials_fail_without_http sampleRuntime envWithoutKey sampleProvider tokenRequest
    (Or.inl rfl)

/-- C8: the global error handler answers with the error's status when it has
one (a status is a non-zero number) and with 500 otherwise; the body is
`error: message` or `error: message, stack` with a non-empty message; and in
production the body has no `stack` field. -/
theorem C8_global_error_responder (env : Env) (req : Request) (err : JSError) :
    (∀ s, err.status = some s → s ≠ 0 → (globalErrorHandler env req err).1.status = s)
      ∧ (err.status = none → (globalErrorHandler env req err).1.status = 500)
      ∧ (∃ m, m ≠ "" ∧
          ((globalErrorHandler env req err).1.body = .obj [("error", .obj [("message", .str m)])]
            ∨ (globalErrorHandler env req err).1.body
              = .obj [("error", .obj [("message", .str m), ("stack", optVal err.stack)])]))
      ∧ (env.NODE_ENV = some "production" →
          ∃ m, (globalErrorHandler env req err).1.body
            = .obj [("error", .obj [("message", .str m)])])
      ∧ (env.NODE_ENV ≠ some "production" →
          ∃ m, (globalErrorHandler env req err).1.body
            = .obj [("error", .obj [("message", .str m), ("stack", optVal err.stack)])]) := by
  have hm : messageOrDefault err ≠ "" := by
    unfold messageOrDefault
    split
    · split
      · decide
      · assumption
    · decide
  refine ⟨?_, ?_, ⟨messageOrDefault err, hm, ?_⟩, ?_, ?_⟩
  · intro s hs hne
    simp [globalErrorHandler, errorResponse, statusOr500, hs, hne]
  · intro hs
    simp [globalErrorHandler, errorResponse, statusOr500, hs]
  · by_cases hp : isProduction env = true
    · left
      simp [globalErrorHandler, errorResponse, hp]
    · right
      simp [globalErrorHandler, errorResponse, hp]
  · intro hp
    exact ⟨messageOrDefault err, by simp [globalErrorHandler, errorResponse, isProduction, hp]⟩
  · intro hp
    exact ⟨messageOrDefault err, by simp [globalErrorHandler, errorResponse, isProduction, hp]⟩

/-- C2, as stated, fails: a body whose `amount` is present and equal to 0 is
answered with 400 although the provider answers both calls with 2xx; and a
token call answered 2xx with the JSON body `null` ends in a 500. -/
theorem C2_present_but_falsy_counterexample :
    getProp zeroAmountBody "amount" = .num 0
      ∧ getProp zeroAmountBody "phone" = .str "254700000000"
      ∧ (routeStkPush sampleRuntime sampleEnv sampleProvider sampleNow
          (pushRequest zeroAmountBody)).1.status = 400
      ∧ (routeStkPush sampleRuntime sampleEnv nullTokenProvider sampleNow
          (pushRequest sampleBody)).1.status = 500 := by
  refine ⟨rfl, rfl, ?_, ?_⟩
  · simp [routeStkPush, respond, mpesaController.initiateSTKPush, pushRequest, zeroAmountBody,
      nullish, getProp, List.lookup, truthy]
  · simp [routeStkPush, respond, mpesaController.initiateSTKPush, pushRequest, sampleBody,
      nullish, getProp, List.lookup, truthy, mpesaService.initiateSTKPush,
      mpesaService.getAccessToken, sampleEnv, nullTokenProvider, envSet,
      mpesaService.tokenFailure, globalErrorHandler, errorResponse, statusOr500, newError]

/-- C2 (amended): when `amount` and `phone` are truthy, the four credentials
are set, the token call is answered 2xx with a body that is not `null`, and
the payment POST is answered 2xx with body `B`, the push route answers 200
with body `B`. -/
theorem C2_push_returns_upstream_body (rt : Runtime) (env : Env) (provider : Provider)
    (now : UTCInstant) (req : Request) (tokenStatus pushStatus : Nat) (tokenData B : JSVal)
    (hamount : truthy (getProp req.body "amount") = true)
    (hphone : truthy (getProp req.body "phone") = true)
    (hkey : envSet env.MPESA_CONSUMER_KEY = true)
    (hsecret : envSet env.MPESA_CONSUMER_SECRET = true)
    (hpasskey : envSet env.MPESA_PASSKEY = true)
    (hshortcode : envSet env.MPESA_SHORTCODE = true)
    (htoken : provider.oauth (mpesaService.oauthUrl env) (mpesaService.basicAuthorization env)
      = .ok tokenStatus tokenData)
    (hdata : nullish tokenData = false)
    (hpush : provider.stkpush (mpesaService.stkPushUrl env)
      (mpesaService.bearerAuthorization rt (getProp tokenData "access_token"))
      (mpesaService.buildPayload env (optText env.MPESA_SHORTCODE) (optText env.MPESA_PASSKEY)
        (timestampAt now) (stkDataOf req.body)) = .ok pushStatus B) :
    (routeStkPush rt env provider now req).1 = Response.mk 200 B := by
  have hbody : nullish req.body = false := by
    cases hb : req.body <;> simp_all [getProp, truthy, nullish]
  have htok := getAccessToken_of_ok rt env provider tokenStatus tokenData hkey hsecret htoken hdata
  unfold stkDataOf at hpush
  simp [routeStkPush, respond, mpesaController.initiateSTKPush, hbody, hamount, hphone,
    mpesaService.initiateSTKPush, htok, hpasskey, hshortcode, hpush]

/-- C2 (amended) on the provider answering `access_token: "T"` and then
`MerchantRequestID: "X"`. -/
theorem C2_push_returns_upstream_body_witness :
    (routeStkPush sampleRuntime sampleEnv sampleProvider sampleNow (pushRequest sampleBody)).1
      = Response.mk 200 (.obj [("MerchantRequestID", .str "X")]) :=
  C2_push_returns_upstream_body sampleRuntime sampleEnv sampleProvider sampleNow
    (pushRequest sampleBody) 200 200 (.obj [("access_token", .str "T")])
    (.obj [("MerchantRequestID", .str "X")])
    (by simp [pushRequest, sampleBody, getProp, List.lookup, truthy])
    (by simp [pushRequest, sampleBody, getProp, List.lookup, truthy])
    rfl rfl rfl rfl rfl rfl rfl

/-- C6, as stated, fails: without `MPESA_CALLBACK_URL` the call succeeds and
the payment request is POSTed; and without `MPESA_PASSKEY`, when the token
call cannot reach the provider, the error thrown is the token error, not a
configuration error. -/
theorem C6_callback_url_counterexample :
    envWithoutCallback.MPESA_CALLBACK_URL = none
      ∧ (mpesaService.initiateSTKPush sampleRuntime envWithoutCallback sampleProvider sampleNow
          (stkDataOf sampleBody)).result = .ok (.obj [("MerchantRequestID", .str "X")])
      ∧ Event.httpPost (mpesaService.stkPushUrl envWithoutCallback) "Bearer T"
          (mpesaService.buildPayload envWithoutCallback "174379" "passkey" (timestampAt sampleNow)
            (stkDataOf sampleBody))
        ∈ (mpesaService.initiateSTKPush sampleRuntime envWithoutCallback sampleProvider sampleNow
          (stkDataOf sampleBody)).trace
      ∧ envWithoutPasskey.MPESA_PASSKEY = none
      ∧ (mpesaService.initiateSTKPush sampleRuntime envWithoutPasskey unreachableProvider sampleNow
          (stkDataOf sampleBody)).result
        = .error (newError sampleRuntime "Could not retrieve M-Pesa access token.") := by
  refine ⟨rfl, ?_, ?_, rfl, ?_⟩
  · simp [mpesaService.initiateSTKPush, mpesaService.getAccessToken, envWithoutCallback,
      sampleEnv, sampleProvider, envSet, nullish]
  · simp [mpesaService.initiateSTKPush, mpesaService.getAccessToken, envWithoutCallback,
      sampleEnv, sampleProvider, envSet, nullish, getProp, List.lookup, optText,
      mpesaService.bearerAuthorization, templateText]
  · simp [mpesaService.initiateSTKPush, mpesaService.getAccessToken, envWithoutPasskey,
      sampleEnv, unreachableProvider, envSet, mpesaService.tokenFailure]

/-- C6 (amended): when the consumer key, the consumer secret, the passkey or
the shortcode is absent, `initiateSTKPush` throws and never POSTs a payment
request; the error is `M-Pesa credentials not configured.` when key or secret
is absent, and `M-Pesa passkey or shortcode not configured.` whenever the
token retrieval returns. -/
theorem C6_missing_config_fails_without_post (rt : Runtime) (env : Env) (provider : Provider)
    (now : UTCInstant) (stkData : mpesaService.StkData)
    (habsent : env.MPESA_CONSUMER_KEY = none ∨ env.MPESA_CONSUMER_SECRET = none
      ∨ env.MPESA_PASSKEY = none ∨ env.MPESA_SHORTCODE = none) :
    (∃ e, (mpesaService.initiateSTKPush rt env provider now stkData).result = .error e)
      ∧ (∀ ev ∈ (mpesaService.initiateSTKPush rt env provider now stkData).trace,
          ev.isPost = false)
      ∧ (env.MPESA_CONSUMER_KEY = none ∨ env.MPESA_CONSUMER_SECRET = none →
          (mpesaService.initiateSTKPush rt env provider now stkData).result
            = .error (newError rt "M-Pesa credentials not configured."))
      ∧ (∀ token, (mpesaService.getAccessToken rt env provider).result = .ok token →
          (mpesaService.initiateSTKPush rt env provider now stkData).result
            = .error (newError rt "M-Pesa passkey or shortcode not configured.")) := by
  have hcred : env.MPESA_CONSUMER_KEY = none ∨ env.MPESA_CONSUMER_SECRET = none →
      (mpesaService.getAccessToken rt env provider).result
        = .error (newError rt "M-Pesa credentials not configured.") := by
    intro h
    have hunset : (!envSet env.MPESA_CONSUMER_KEY || !envSet env.MPESA_CONSUMER_SECRET)
        = true := by
      rcases h with h | h <;> simp [h, envSet]
    simp [mpesaService.getAccessToken, hunset]
  have hpay : ∀ token, (mpesaService.getAccessToken rt env provider).result = .ok token →
      (!envSet env.MPESA_PASSKEY || !envSet env.MPESA_SHORTCODE) = true := by
    intro token htok
    rcases habsent with h | h | h | h
    · rw [hcred (Or.inl h)] at htok; cases htok
    · rw [hcred (Or.inr h)] at htok; cases htok
    · simp [h, envSet]
    · simp [h, envSet]
  have hresult : ∀ token, (mpesaService.getAccessToken rt env provider).result = .ok token →
      (mpesaService.initiateSTKPush rt env provider now stkData).result
        = .error (newError rt "M-Pesa passkey or shortcode not configured.") := by
    intro token htok
    simp [mpesaService.initiateSTKPush, htok, hpay token htok]
  refine ⟨?_, ?_, ?_, hresult⟩
  · cases htok : (mpesaService.getAccessToken rt env provider).result with
    | error e => exact ⟨e, by simp [mpesaService.initiateSTKPush, htok]⟩
    | ok token => exact ⟨_, hresult token htok⟩
  · intro ev hev
    cases hpost : ev with
    | httpPost url authorization payload =>
      rw [hpost] at hev
      obtain ⟨hpk, hsc, token, htok, _⟩ :=
        post_mem_trace rt env provider now stkData url authorization payload hev
      have := hpay token htok
      simp [hpk, hsc] at this
    | logError _ => rfl
    | logInfo _ _ => rfl
    | httpGet _ _ => rfl
  · intro h
    simp [mpesaService.initiateSTKPush, hcred h]

/-- C6 (amended) on the sample environment without its passkey. -/
theorem C6_missing_config_fails_without_post_witness :
    (∃ e, (mpesaService.initiateSTKPush sampleRuntime envWithoutPasskey sampleProvider sampleNow
        (stkDataOf sampleBody)).result = .error e)
      ∧ (∀ ev ∈ (mpesaService.initiateSTKPush sampleRuntime envWithoutPasskey sampleProvider
          sampleNow (stkDataOf sampleBody)).trace, ev.isPost = false)
      ∧ (envWithoutPasskey.MPESA_CONSUMER_KEY = none ∨ envWithoutPasskey.MPESA_CONSUMER_SECRET = none →
          (mpesaService.initiateSTKPush sampleRuntime envWithoutPasskey sampleProvider sampleNow
            (stkDataOf sampleBody)).result
            = .error (newError sampleRuntime "M-Pesa credentials not configured."))
      ∧ (∀ token,
          (mpesaService.getAccessToken sampleRuntime envWithoutPasskey sampleProvider).result
            = .ok token →
          (mpesaService.initiateSTKPush sampleRuntime envWithoutPasskey sampleProvider sampleNow
            (stkDataOf sampleBody)).result
            = .error (newError sampleRuntime "M-Pesa passkey or shortcode not configured.")) :=
  C6_missing_config_fails_without_post sampleRuntime envWithoutPasskey sampleProvider sampleNow
    (stkDataOf sampleBody) (Or.inr (Or.inr (Or.inl rfl)))

/-- C7: the error thrown by the service and the response the client receives
do not depend on how the provider failed.  For two providers whose token
calls are both rejected (any error body, or no response), or which answer the
token call alike and both reject the payment POST, the service throws the
same error and both routes answer with the same status and body. -/
theorem C7_upstream_error_body_not_returned (rt : Runtime) (env : Env) (now : UTCInstant)
    (req : Request) (p1 p2 : Provider)
    (hfail :
      ((p1.oauth (mpesaService.oauthUrl env) (mpesaService.basicAuthorization env)).isFailure = true
        ∧ (p2.oauth (mpesaService.oauthUrl env) (mpesaService.basicAuthorization env)).isFailure
          = true)
      ∨ (p1.oauth = p2.oauth
        ∧ (∀ authorization payload,
            (p1.stkpush (mpesaService.stkPushUrl env) authorization payload).isFailure = true)
        ∧ ∀ authorization payload,
            (p2.stkpush (mpesaService.stkPushUrl env) authorization payload).isFailure = true)) :
    (mpesaService.getAccessToken rt env p1).result = (mpesaService.getAccessToken rt env p2).result
      ∧ (mpesaService.initiateSTKPush rt env p1 now (stkDataOf req.body)).result
        = (mpesaService.initiateSTKPush rt env p2 now (stkDataOf req.body)).result
      ∧ (routeToken rt env p1 req).1 = (routeToken rt env p2 req).1
      ∧ (routeStkPush rt env p1 now req).1 = (routeStkPush rt env p2 now req).1 := by
  have hservice : (mpesaService.getAccessToken rt env p1).result
        = (mpesaService.getAccessToken rt env p2).result
      ∧ (mpesaService.initiateSTKPush rt env p1 now (stkDataOf req.body)).result
        = (mpesaService.initiateSTKPush rt env p2 now (stkDataOf req.body)).result := by
    rcases hfail with ⟨h1, h2⟩ | ⟨htoken, h1, h2⟩
    · have e1 := getAccessToken_result_of_failure rt env p1 h1
      have e2 := getAccessToken_result_of_failure rt env p2 h2
      obtain ⟨err, herr⟩ : ∃ err,
          (if (!envSet env.MPESA_CONSUMER_KEY || !envSet env.MPESA_CONSUMER_SECRET) = true
            then (.error (newError rt "M-Pesa credentials not configured.") : Except JSError JSVal)
            else .error (newError rt "Could not retrieve M-Pesa access token.")) = .error err := by
        split
        · exact ⟨_, rfl⟩
        · exact ⟨_, rfl⟩
      rw [herr] at e1 e2
      refine ⟨e1.trans e2.symm, ?_⟩
      simp [mpesaService.initiateSTKPush, e1, e2]
    · have e := getAccessToken_congr rt env p1 p2 htoken
      refine ⟨by rw [e], ?_⟩
      unfold mpesaService.initiateSTKPush
      simp only
      rw [e]
      split
      · rfl
      · rename_i token _
        split
        · rfl
        · have f1 := h1 (mpesaService.bearerAuthorization rt token)
            (mpesaService.buildPayload env (optText env.MPESA_SHORTCODE)
              (optText env.MPESA_PASSKEY) (timestampAt now) (stkDataOf req.body))
          have f2 := h2 (mpesaService.bearerAuthorization rt token)
            (mpesaService.buildPayload env (optText env.MPESA_SHORTCODE)
              (optText env.MPESA_PASSKEY) (timestampAt now) (stkDataOf req.body))
          revert f1 f2
          cases p1.stkpush (mpesaService.stkPushUrl env) (mpesaService.bearerAuthorization rt token)
            (mpesaService.buildPayload env (optText env.MPESA_SHORTCODE)
              (optText env.MPESA_PASSKEY) (timestampAt now) (stkDataOf req.body)) <;>
          cases p2.stkpush (mpesaService.stkPushUrl env) (mpesaService.bearerAuthorization rt token)
            (mpesaService.buildPayload env (optText env.MPESA_SHORTCODE)
              (optText env.MPESA_PASSKEY) (timestampAt now) (stkDataOf req.body)) <;>
          simp [HttpResult.isFailure, mpesaService.pushFailure]
  exact ⟨hservice.1, hservice.2, routeToken_fst_congr rt env p1 p2 req hservice.1,
    routeStkPush_fst_congr rt env p1 p2 now req hservice.2⟩

/-- C7 on a provider answering 401 with an error body and a provider that
cannot be reached. -/
theorem C7_upstream_error_body_not_returned_witness :
    (mpesaService.getAccessToken sampleRuntime sampleEnv rejectingProvider).result
        = (mpesaService.getAccessToken sampleRuntime sampleEnv unreachableProvider).result
      ∧ (mpesaService.initiateSTKPush sampleRuntime sampleEnv rejectingProvider sampleNow
          (stkDataOf (pushRequest sampleBody).body)).result
        = (mpesaService.initiateSTKPush sampleRuntime sampleEnv unreachableProvider sampleNow
          (stkDataOf (pushRequest sampleBody).body)).result
      ∧ (routeToken sampleRuntime sampleEnv rejectingProvider (pushRequest sampleBody)).1
        = (routeToken sampleRuntime sampleEnv unreachableProvider (pushRequest sampleBody)).1
      ∧ (routeStkPush sampleRuntime sampleEnv rejectingProvider sampleNow
          (pushRequest sampleBody)).1
        = (routeStkPush sampleRuntime sampleEnv unreachableProvider sampleNow
          (pushRequest sampleBody)).1 :=
  C7_upstream_error_body_not_returned sampleRuntime sampleEnv sampleNow (pushRequest sampleBody)
    rejectingProvider unreachableProvider (Or.inl ⟨rfl, rfl⟩)

/-- C9, as stated, fails: the body `amount: -5, phone: "254700000000"` is not
rejected (the route answers 200) and the payload POSTed carries `Amount: -5`,
which is not a positive number. -/
theorem C9_negative_amount_counterexample :
    (routeStkPush sampleRuntime sampleEnv sampleProvider sampleNow
        (pushRequest negativeAmountBody)).1.status = 200
      ∧ Event.httpPost (mpesaService.stkPushUrl sampleEnv) "Bearer T"
          (mpesaService.buildPayload sampleEnv "174379" "passkey" (timestampAt sampleNow)
            (stkDataOf negativeAmountBody))
        ∈ (routeStkPush sampleRuntime sampleEnv sampleProvider sampleNow
          (pushRequest negativeAmountBody)).2
      ∧ (mpesaService.buildPayload sampleEnv "174379" "passkey" (timestampAt sampleNow)
          (stkDataOf negativeAmountBody)).Amount = .num (-5)
      ∧ isPositiveNumber (.num (-5)) = false := by
  refine ⟨?_, ?_, rfl, by decide⟩
  · simp [routeStkPush, respond, mpesaController.initiateSTKPush, pushRequest,
      negativeAmountBody, nullish, getProp, List.lookup, truthy, mpesaService.initiateSTKPush,
      mpesaService.getAccessToken, sampleEnv, sampleProvider, envSet]
  · simp [routeStkPush, respond, mpesaController.initiateSTKPush, pushRequest,
      negativeAmountBody, nullish, getProp, List.lookup, truthy, mpesaService.initiateSTKPush,
      mpesaService.getAccessToken, sampleEnv, sampleProvider, envSet, optText, stkDataOf,
      mpesaService.bearerAuthorization, templateText]

/-- C9 (amended): in every payment POST of the push route, `Amount` is the
`amount` of the request body, unchanged, and it is truthy (not missing, `null`,
`false`, 0 or the empty string). -/
theorem C9_amount_is_forwarded_and_truthy (rt : Runtime) (env : Env) (provider : Provider)
    (now : UTCInstant) (req : Request) (url authorization : String) (payload : Payload)
    (hpost : Event.httpPost url authorization payload
      ∈ (routeStkPush rt env provider now req).2) :
    payload.Amount = getProp req.body "amount" ∧ truthy payload.Amount = true
      ∧ payload.Amount ≠ .num 0 := by
  obtain ⟨hamount, _, hmem⟩ := post_mem_route rt env provider now req url authorization payload hpost
  obtain ⟨_, _, _, _, _, _, hpayload⟩ :=
    post_mem_trace rt env provider now (stkDataOf req.body) url authorization payload hmem
  have hA : payload.Amount = getProp req.body "amount" := by
    rw [hpayload]
    rfl
  refine ⟨hA, by rw [hA]; exact hamount, ?_⟩
  intro h0
  rw [hA] at h0
  rw [h0] at hamount
  simp [truthy] at hamount

/-- C9 (amended) on the body `amount: -5, phone: "254700000000"`. -/
theorem C9_amount_is_forwarded_and_truthy_witness :
    (mpesaService.buildPayload sampleEnv "174379" "passkey" (timestampAt sampleNow)
        (stkDataOf negativeAmountBody)).Amount = getProp (pushRequest negativeAmountBody).body "amount"
      ∧ truthy (mpesaService.buildPayload sampleEnv "174379" "passkey" (timestampAt sampleNow)
        (stkDataOf negativeAmountBody)).Amount = true
      ∧ (mpesaService.buildPayload sampleEnv "174379" "passkey" (timestampAt sampleNow)
        (stkDataOf negativeAmountBody)).Amount ≠ .num 0 :=
  C9_amount_is_forwarded_and_truthy sampleRuntime sampleEnv sampleProvider sampleNow
    (pushRequest negativeAmountBody) (mpesaService.stkPushUrl sampleEnv) "Bearer T"
    (mpesaService.buildPayload sampleEnv "174379" "passkey" (timestampAt sampleNow)
      (stkDataOf negativeAmountBody))
    (by simp [routeStkPush, respond, mpesaController.initiateSTKPush, pushRequest,
      negativeAmountBody, nullish, getProp, List.lookup, truthy, mpesaService.initiateSTKPush,
      mpesaService.getAccessToken, sampleEnv, sampleProvider, envSet, optText, stkDataOf,
      mpesaService.bearerAuthorization, templateText])

/-- C10: the code breaks the claim and the JSDoc of `getAccessToken`
(`@returns Promise<string>`).  With consumer key and secret set and the OAuth
endpoint answering 200 with the empty object, `getAccessToken` returns
`undefined`, which is not a string; the token route then answers 200 with
`accessToken: undefined`, and the payment POST is sent with
`Authorization: Bearer undefined`. -/
theorem C10_empty_oauth_body_returns_undefined :
    (mpesaService.getAccessToken sampleRuntime sampleEnv emptyTokenProvider).result
        = .ok .undefined
      ∧ isString .undefined = false
      ∧ (routeToken sampleRuntime sampleEnv emptyTokenProvider tokenRequest).1
        = Response.mk 200 (.obj [("accessToken", .undefined)])
      ∧ Event.httpPost (mpesaService.stkPushUrl sampleEnv) "Bearer undefined"
          (mpesaService.buildPayload sampleEnv "174379" "passkey" (timestampAt sampleNow)
            (stkDataOf sampleBody))
        ∈ (mpesaService.initiateSTKPush sampleRuntime sampleEnv emptyTokenProvider sampleNow
          (stkDataOf sampleBody)).trace := by
  have hrun : (mpesaService.getAccessToken sampleRuntime sampleEnv emptyTokenProvider).result
      = .ok .undefined := by
    simp [mpesaService.getAccessToken, sampleEnv, emptyTokenProvider, envSet, nullish, getProp,
      List.lookup]
  refine ⟨hrun, rfl, ?_, ?_⟩
  · simp [routeToken, respond, mpesaController.getAccessToken, hrun]
  · simp [mpesaService.initiateSTKPush, mpesaService.getAccessToken, sampleEnv,
      emptyTokenProvider, sampleProvider, envSet, nullish, getProp, List.lookup, optText,
      mpesaService.bearerAuthorization, templateText]

/-- When consumer key and secret are set and the OAuth endpoint answers 2xx
with a body whose `access_token` is the string `T`, `getAccessToken` returns
`T`, the token route answers 200 with `accessToken: T`, and every payment POST
carries `Authorization: Bearer T`; with passkey and shortcode set, that POST
is sent. -/
theorem getAccessToken_returns_access_token_field (rt : Runtime) (env : Env) (provider : Provider)
    (req : Request) (status : Nat) (data : JSVal) (T : String)
    (hkey : envSet env.MPESA_CONSUMER_KEY = true)
    (hsecret : envSet env.MPESA_CONSUMER_SECRET = true)
    (htoken : provider.oauth (mpesaService.oauthUrl env) (mpesaService.basicAuthorization env)
      = .ok status data)
    (hfield : getProp data "access_token" = .str T) :
    (mpesaService.getAccessToken rt env provider).result = .ok (.str T)
      ∧ (routeToken rt env provider req).1 = Response.mk 200 (.obj [("accessToken", .str T)])
      ∧ (∀ now stkData url authorization payload,
          Event.httpPost url authorization payload
            ∈ (mpesaService.initiateSTKPush rt env provider now stkData).trace →
          authorization = "Bearer " ++ T)
      ∧ (envSet env.MPESA_PASSKEY = true → envSet env.MPESA_SHORTCODE = true →
          ∀ now stkData, ∃ payload,
            Event.httpPost (mpesaService.stkPushUrl env) ("Bearer " ++ T) payload
              ∈ (mpesaService.initiateSTKPush rt env provider now stkData).trace) := by
  have hdata : nullish data = false := by
    cases data <;> simp_all [getProp, nullish]
  have hrun := getAccessToken_of_ok rt env provider status data hkey hsecret htoken hdata
  rw [hfield] at hrun
  refine ⟨by rw [hrun], ?_, ?_, ?_⟩
  · simp [routeToken, respond, mpesaController.getAccessToken, hrun]
  · intro now stkData url authorization payload hpost
    obtain ⟨_, _, token, htok, _, hauth, _⟩ :=
      post_mem_trace rt env provider now stkData url authorization payload hpost
    rw [hrun] at htok
    cases htok
    rw [hauth]
    rfl
  · intro hpk hsc now stkData
    refine ⟨mpesaService.buildPayload env (optText env.MPESA_SHORTCODE)
      (optText env.MPESA_PASSKEY) (timestampAt now) stkData, ?_⟩
    unfold mpesaService.initiateSTKPush
    simp only [hrun, hpk, hsc]
    cases provider.stkpush (mpesaService.stkPushUrl env)
      (mpesaService.bearerAuthorization rt (.str T))
      (mpesaService.buildPayload env (optText env.MPESA_SHORTCODE)
        (optText env.MPESA_PASSKEY) (timestampAt now) stkData) <;>
    simp [mpesaService.pushFailure, mpesaService.bearerAuthorization, templateText]

end Mpesa
